import Mathlib

/-!
Verification of the Dress-UP-Server REST backend (src/index.js).

Shallow embedding: the MongoDB collections are lists of records and each
Express handler is a pure function from the request data and the current
store contents to a response value (plus the updated store for mutating
handlers).  Collaborator calls that may throw are modelled explicitly where
a claim is about failure propagation.
-/

namespace DressUp

/-- A product document of the `products` collection.  `pid` models the
Mongo `_id` (a 24-hex-character ObjectId string).  The six payload fields
are optional because the handlers write them verbatim from the request
body, where any of them may be absent.  `createdAt` models the creation
timestamp used by the default sort of the listing handler. -/
structure Product where
  pid : String
  image : Option String
  title : Option String
  price : Option Int
  ratings : Option Int
  category : Option String
  description : Option String
  createdAt : Option Nat
  deriving Repr, DecidableEq

/-- Store-side comparison for sorting on an optional numeric field: a
missing value sorts below every present number (BSON order). -/
def optIntLe : Option Int → Option Int → Bool
  | none, _ => true
  | some _, none => false
  | some a, some b => a ≤ b

/-- Same comparison for the optional `createdAt` timestamp. -/
def optNatLe : Option Nat → Option Nat → Bool
  | none, _ => true
  | some _, none => false
  | some a, some b => a ≤ b

/-- The sort order chosen by the listing handler: `{price: 1}`,
`{price: -1}` or the default `{createdAt: -1}`. -/
inductive SortSpec where
  | priceAsc
  | priceDesc
  | createdAtDesc
  deriving Repr, DecidableEq

/-- The `sortOption` computation of the listing handler: when `sort` is a
truthy string, `asc` selects ascending price and any other value selects
descending price; when `sort` is absent (or the empty string, which is
falsy in JS) the default is descending `createdAt`. -/
def sortSpecOf : Option String → SortSpec
  | none => .createdAtDesc
  | some s =>
    if s.isEmpty then .createdAtDesc
    else if s = "asc" then .priceAsc else .priceDesc

/-- The relation, for each sort order, that a document sorts no later than
another. -/
def sortLe : SortSpec → Product → Product → Bool
  | .priceAsc, a, b => optIntLe a.price b.price
  | .priceDesc, a, b => optIntLe b.price a.price
  | .createdAtDesc, a, b => optNatLe b.createdAt a.createdAt

/-- The documents returned by `find(query).sort(sortOption)`: all matching
documents, arranged in the requested order (the store's sort is modelled by
insertion sort over the chosen comparison; ties keep store order). -/
def sortDocs (s : SortSpec) (l : List Product) : List Product :=
  List.insertionSort (fun a b => sortLe s a b = true) l

/-- The filter built by the listing handler: `{}` when `category` is absent
or the empty string (falsy in JS), `{category: c}` otherwise.  `none` means
the empty filter. -/
def buildQuery : Option String → Option String
  | none => none
  | some c => if c.isEmpty then none else some c

/-- Whether a document matches the filter produced by `buildQuery`. -/
def matchesQuery : Option String → Product → Bool
  | none, _ => true
  | some c, p => p.category == some c

/-- The store call `countDocuments(query)`. -/
def countDocuments (store : List Product) (q : Option String) : Nat :=
  (store.filter (matchesQuery q)).length

/-- The JSON envelope of the listing endpoint. -/
structure ListResponse where
  status : Nat
  success : Bool
  message : String
  products : List Product
  totalProducts : Nat
  totalPages : Nat
  currentPage : Nat
  deriving Repr, DecidableEq

/-- `Math.ceil(a / b)` for the nonnegative integers the handler divides
(`totalProducts / limit`); meaningful for `b > 0`. -/
def jsCeil (a b : Nat) : Nat := (a + b - 1) / b

/-- GET /api/v1/products.  `page`, `limit`, `category` and `sort` are the
query parameters (`none` = absent); `page` and `limit`, when present, carry
the numeric value of a well-formed positive integer numeral (the handler
itself parses them with `parseInt` and arithmetic coercion).  `page`
defaults to 1 when absent.  When `limit` is absent no skip/limit window is
applied and `totalPages` is 1; otherwise `skip = (page - 1) * limit` and
`totalPages = Math.ceil(totalProducts / limit)`. -/
def getProducts (store : List Product) (page : Option Nat) (limit : Option Nat)
    (category : Option String) (sort : Option String) : ListResponse :=
  let pageVal := page.getD 1
  let query := buildQuery category
  let sorted := sortDocs (sortSpecOf sort) (store.filter (matchesQuery query))
  let products :=
    match limit with
    | none => sorted
    | some l => (sorted.drop ((pageVal - 1) * l)).take l
  let totalProducts := countDocuments store query
  { status := 200
    success := true
    message := "Products retrieved successfully"
    products := products
    totalProducts := totalProducts
    totalPages :=
      match limit with
      | none => 1
      | some l => jsCeil totalProducts l
    currentPage := pageVal }

/-- C1: when the `limit` query parameter is absent, the listing returns
every record matching the category filter — the full filtered set, no
skip/limit window — and the envelope reports `totalPages = 1`. -/
theorem c1_no_limit_returns_all (store : List Product) (page : Option Nat)
    (category sort : Option String) :
    (getProducts store page none category sort).products
        = sortDocs (sortSpecOf sort) (store.filter (matchesQuery (buildQuery category))) ∧
    (getProducts store page none category sort).products.Perm
        (store.filter (matchesQuery (buildQuery category))) ∧
    (getProducts store page none category sort).totalPages = 1 := by
  refine ⟨rfl, ?_, rfl⟩
  exact List.perm_insertionSort _ _

/-- C2: the `totalProducts` value of the envelope is a count over exactly
the filter used by the listing query itself (empty filter without a
category, `{category: c}` with one), and it does not depend on the
pagination window. -/
theorem c2_count_same_filter (store : List Product)
    (page page2 : Option Nat) (limit limit2 : Option Nat)
    (category sort sort2 : Option String) :
    (getProducts store page limit category sort).totalProducts
        = (store.filter (matchesQuery (buildQuery category))).length ∧
    (getProducts store page limit category sort).totalProducts
        = (getProducts store page2 limit2 category sort2).totalProducts :=
  ⟨rfl, rfl⟩

/-- For a positive divisor, the handler's integer formula agrees with the
mathematical ceiling of the rational quotient. -/
theorem jsCeil_eq_ceil (a b : Nat) (hb : 1 ≤ b) :
    (jsCeil a b : ℤ) = ⌈(a : ℚ) / (b : ℚ)⌉ := by
  have hb0 : 0 < b := hb
  have hbq : (0 : ℚ) < (b : ℚ) := by exact_mod_cast hb0
  have h1 : a ≤ b * jsCeil a b := by
    have hd := Nat.div_add_mod (a + b - 1) b
    have hm : (a + b - 1) % b < b := Nat.mod_lt _ hb0
    unfold jsCeil
    set q := (a + b - 1) / b with hq
    set r := (a + b - 1) % b with hr
    set m := b * q with hm2
    omega
  have h2 : b * jsCeil a b < a + b := by
    unfold jsCeil
    calc b * ((a + b - 1) / b) = (a + b - 1) / b * b := Nat.mul_comm _ _
      _ ≤ a + b - 1 := Nat.div_mul_le_self _ _
      _ < a + b := by omega
  symm
  rw [Int.ceil_eq_iff]
  have h1q : (a : ℚ) ≤ (b : ℚ) * (jsCeil a b : ℚ) := by exact_mod_cast h1
  have h2q : (b : ℚ) * (jsCeil a b : ℚ) < (a : ℚ) + (b : ℚ) := by exact_mod_cast h2
  constructor
  · rw [lt_div_iff₀ hbq]
    push_cast
    nlinarith [h2q]
  · rw [div_le_iff₀ hbq]
    push_cast
    nlinarith [h1q]

/-- C3: with `limit = L` and `page = P` given (both positive), the listing
applies a skip of `(P - 1) * L` documents to the filtered sorted set,
returns at most `L` documents from that offset, and reports
`totalPages = ceil(totalCount / L)`. -/
theorem c3_pagination_window (store : List Product) (P L : Nat)
    (category sort : Option String) (_hP : 1 ≤ P) (hL : 1 ≤ L) :
    (getProducts store (some P) (some L) category sort).products
        = ((sortDocs (sortSpecOf sort)
              (store.filter (matchesQuery (buildQuery category)))).drop
            ((P - 1) * L)).take L ∧
    (getProducts store (some P) (some L) category sort).products.length ≤ L ∧
    ((getProducts store (some P) (some L) category sort).totalPages : ℤ)
        = ⌈(countDocuments store (buildQuery category) : ℚ) / (L : ℚ)⌉ := by
  refine ⟨rfl, ?_, ?_⟩
  · show (((sortDocs (sortSpecOf sort)
        (store.filter (matchesQuery (buildQuery category)))).drop
          ((P - 1) * L)).take L).length ≤ L
    rw [List.length_take]
    exact min_le_left _ _
  · exact jsCeil_eq_ceil _ _ hL

/-- A concrete product used by the witnesses (its `pid` is a well-formed
24-hex-character ObjectId string). -/
def prodA : Product :=
  { pid := "aaaaaaaaaaaaaaaaaaaaaaaa", image := some "imgA",
    title := some "Shirt", price := some 10, ratings := some 5,
    category := some "men", description := some "A shirt",
    createdAt := some 1 }

/-- A second concrete product with a distinct valid ObjectId. -/
def prodB : Product :=
  { pid := "bbbbbbbbbbbbbbbbbbbbbbbb", image := some "imgB",
    title := some "Dress", price := some 20, ratings := some 4,
    category := some "women", description := some "A dress",
    createdAt := some 2 }

/-- Witness for C3 at `store = [prodA, prodB]`, `P = 2`, `L = 1`. -/
theorem c3_pagination_window_witness :
    1 ≤ 2 ∧ 1 ≤ 1 ∧
    ((getProducts [prodA, prodB] (some 2) (some 1) none none).products
        = ((sortDocs (sortSpecOf none)
              (([prodA, prodB] : List Product).filter
                (matchesQuery (buildQuery none)))).drop ((2 - 1) * 1)).take 1 ∧
    (getProducts [prodA, prodB] (some 2) (some 1) none none).products.length ≤ 1 ∧
    ((getProducts [prodA, prodB] (some 2) (some 1) none none).totalPages : ℤ)
        = ⌈(countDocuments [prodA, prodB] (buildQuery none) : ℚ) / ((1 : Nat) : ℚ)⌉) :=
  ⟨by decide, by decide,
    c3_pagination_window [prodA, prodB] 2 1 none none (by decide) (by decide)⟩

/-- C10: when the requested window starts at or beyond the end of the
matching set, the listing still succeeds: `success = true`, an empty
products array, and `currentPage` echoing the requested page. -/
theorem c10_window_beyond_end (store : List Product) (P L : Nat)
    (category sort : Option String) (_hP : 1 ≤ P) (_hL : 1 ≤ L)
    (hbeyond : countDocuments store (buildQuery category) ≤ (P - 1) * L) :
    (getProducts store (some P) (some L) category sort).success = true ∧
    (getProducts store (some P) (some L) category sort).products = [] ∧
    (getProducts store (some P) (some L) category sort).status = 200 ∧
    (getProducts store (some P) (some L) category sort).currentPage = P := by
  refine ⟨rfl, ?_, rfl, rfl⟩
  show ((sortDocs (sortSpecOf sort)
      (store.filter (matchesQuery (buildQuery category)))).drop
        ((P - 1) * L)).take L = []
  have hlen : (sortDocs (sortSpecOf sort)
      (store.filter (matchesQuery (buildQuery category)))).length ≤ (P - 1) * L := by
    unfold sortDocs
    rw [List.length_insertionSort]
    exact hbeyond
  rw [List.drop_eq_nil_of_le hlen]
  exact List.take_nil

/-- Witness for C10 at `store = [prodA]`, `P = 3`, `L = 2`. -/
theorem c10_window_beyond_end_witness :
    1 ≤ 3 ∧ 1 ≤ 2 ∧ countDocuments [prodA] (buildQuery none) ≤ (3 - 1) * 2 ∧
    ((getProducts [prodA] (some 3) (some 2) none none).success = true ∧
      (getProducts [prodA] (some 3) (some 2) none none).products = [] ∧
      (getProducts [prodA] (some 3) (some 2) none none).status = 200 ∧
      (getProducts [prodA] (some 3) (some 2) none none).currentPage = 3) :=
  ⟨by decide, by decide, by decide,
    c10_window_beyond_end [prodA] 3 2 none none (by decide) (by decide) (by decide)⟩

/-- Whether a string is accepted by the ObjectId constructor: exactly 24
hexadecimal characters.  `new ObjectId(id)` throws for any other string. -/
def validObjectId (s : String) : Bool :=
  s.length == 24 && s.data.all fun c => "0123456789abcdefABCDEF".data.contains c

/-- The JSON response of the single-product lookup. -/
structure LookupResponse where
  status : Nat
  success : Bool
  message : String
  product : Option Product
  deriving Repr, DecidableEq

/-- GET /api/v1/products/:id.  `new ObjectId(id)` throws inside the try
block for a malformed id and the catch maps it to the 500 branch; a
well-formed id absent from the store takes the explicit 404 branch. -/
def getProduct (store : List Product) (id : String) : LookupResponse :=
  if validObjectId id then
    match store.find? (fun p => p.pid == id) with
    | some p =>
      { status := 200, success := true,
        message := "Product retrieved successfully", product := some p }
    | none =>
      { status := 404, success := false, message := "Product not found",
        product := none }
  else
    { status := 500, success := false, message := "Failed to get product",
      product := none }

/-- C7 counterexample: a malformed identifier and a well-formed but absent
identifier do NOT surface as the same error category — the former yields
the 500 "Failed to get product" response, the latter the 404 "Product not
found" response. -/
theorem c7_counterexample_distinct_categories :
    (getProduct [] "not-an-objectid").status
        ≠ (getProduct [] "0123456789abcdef01234567").status ∧
    (getProduct [] "not-an-objectid").message
        ≠ (getProduct [] "0123456789abcdef01234567").message := by
  constructor <;> decide

/-- C7 amended: a malformed identifier surfaces as the generic 500
"Failed to get product" response while a well-formed identifier matching no
record surfaces as the 404 "Product not found" response — two distinct
error categories. -/
theorem c7_amended_lookup_errors (store : List Product) (badId goodId : String)
    (hbad : validObjectId badId = false)
    (hgood : validObjectId goodId = true)
    (habsent : store.find? (fun p => p.pid == goodId) = none) :
    getProduct store badId
        = { status := 500, success := false,
            message := "Failed to get product", product := none } ∧
    getProduct store goodId
        = { status := 404, success := false,
            message := "Product not found", product := none } := by
  constructor
  · simp [getProduct, hbad]
  · simp [getProduct, hgood, habsent]

/-- Witness for the amended C7 at a malformed and an absent identifier. -/
theorem c7_amended_lookup_errors_witness :
    validObjectId "not-an-objectid" = false ∧
    validObjectId "0123456789abcdef01234567" = true ∧
    ([] : List Product).find? (fun p => p.pid == "0123456789abcdef01234567") = none ∧
    (getProduct [] "not-an-objectid"
        = { status := 500, success := false,
            message := "Failed to get product", product := none } ∧
      getProduct [] "0123456789abcdef01234567"
        = { status := 404, success := false,
            message := "Product not found", product := none }) :=
  ⟨by decide, by decide, rfl,
    c7_amended_lookup_errors [] "not-an-objectid" "0123456789abcdef01234567"
      (by decide) (by decide) rfl⟩

/-- The six-field request body of the create and update endpoints; an
absent field is `none` (`undefined` in JS). -/
structure UpdateBody where
  image : Option String
  title : Option String
  price : Option Int
  ratings : Option Int
  category : Option String
  description : Option String
  deriving Repr, DecidableEq

/-- The `$set` document built by the update handler applied to a stored
document: all six fields are written verbatim from the request body —
including `undefined` ones, which the driver serializes and the store
writes over the old values (clearing them). -/
def applySet (b : UpdateBody) (p : Product) : Product :=
  { p with image := b.image, title := b.title, price := b.price,
           ratings := b.ratings, category := b.category,
           description := b.description }

/-- Replace the first element satisfying `p` by `f` applied to it
(`updateOne` semantics: at most one document is modified). -/
def updateFirst (p : Product → Bool) (f : Product → Product) :
    List Product → List Product
  | [] => []
  | x :: xs => if p x then f x :: xs else x :: updateFirst p f xs

/-- The JSON response of the update endpoint, paired with the store
contents after the call. -/
structure UpdateResponse where
  status : Nat
  success : Bool
  message : String
  newStore : List Product
  deriving Repr, DecidableEq

/-- PUT /api/v1/products/:id:  a malformed id throws in the ObjectId
constructor and is caught as a 500; `matchedCount === 0` yields the 404
branch; otherwise the matched document is overwritten with the `$set`
document. -/
def updateProduct (store : List Product) (id : String) (body : UpdateBody) :
    UpdateResponse :=
  if validObjectId id then
    if store.any (fun p => p.pid == id) then
      { status := 200, success := true,
        message := "Product updated successfully",
        newStore := updateFirst (fun p => p.pid == id) (applySet body) store }
    else
      { status := 404, success := false, message := "Product not found",
        newStore := store }
  else
    { status := 500, success := false, message := "Failed to update product",
      newStore := store }

/-- `updateFirst` passes over a prefix containing no match. -/
theorem updateFirst_append_of_not (p : Product → Bool) (f : Product → Product)
    (pre rest : List Product) (h : ∀ q ∈ pre, p q = false) :
    updateFirst p f (pre ++ rest) = pre ++ updateFirst p f rest := by
  induction pre with
  | nil => rfl
  | cons x xs ih =>
    have hx : p x = false := h x (by simp)
    have ih2 := ih (fun q hq => h q (by simp [hq]))
    simp [List.cons_append, updateFirst, hx, ih2, List.append_eq]

/-- C8: updating an existing product overwrites all six fields from the
request body unconditionally; in particular each stored field afterwards
equals the body's field, so an omitted (`none`) field is cleared rather
than left unchanged. -/
theorem c8_update_overwrites_fields (pre post : List Product) (p : Product)
    (id : String) (body : UpdateBody)
    (hid : validObjectId id = true) (hp : p.pid = id)
    (hpre : ∀ q ∈ pre, (q.pid == id) = false) :
    updateProduct (pre ++ p :: post) id body
        = { status := 200, success := true,
            message := "Product updated successfully",
            newStore := pre ++ applySet body p :: post } ∧
    ((applySet body p).image = body.image ∧
      (applySet body p).title = body.title ∧
      (applySet body p).price = body.price ∧
      (applySet body p).ratings = body.ratings ∧
      (applySet body p).category = body.category ∧
      (applySet body p).description = body.description) := by
  have hmatch : (p.pid == id) = true := by simp [hp]
  have hany : (pre ++ p :: post).any (fun q => q.pid == id) = true := by
    simp [List.any_append, hmatch]
  have hupd : updateFirst (fun q => q.pid == id) (applySet body)
      (pre ++ p :: post) = pre ++ applySet body p :: post := by
    rw [updateFirst_append_of_not _ _ _ _ hpre]
    simp [updateFirst, hmatch]
  refine ⟨?_, rfl, rfl, rfl, rfl, rfl, rfl⟩
  simp [updateProduct, hid, hany, hupd]

/-- Witness for C8: updating `prodA` (whose description is present) with a
body that omits every field clears all six fields. -/
theorem c8_update_overwrites_fields_witness :
    validObjectId "aaaaaaaaaaaaaaaaaaaaaaaa" = true ∧
    prodA.pid = "aaaaaaaaaaaaaaaaaaaaaaaa" ∧
    (∀ q ∈ ([] : List Product), (q.pid == "aaaaaaaaaaaaaaaaaaaaaaaa") = false) ∧
    (updateProduct ([] ++ prodA :: []) "aaaaaaaaaaaaaaaaaaaaaaaa"
          ⟨none, none, none, none, none, none⟩
        = { status := 200, success := true,
            message := "Product updated successfully",
            newStore := [] ++ applySet ⟨none, none, none, none, none, none⟩ prodA :: [] } ∧
      ((applySet ⟨none, none, none, none, none, none⟩ prodA).image = none ∧
        (applySet ⟨none, none, none, none, none, none⟩ prodA).title = none ∧
        (applySet ⟨none, none, none, none, none, none⟩ prodA).price = none ∧
        (applySet ⟨none, none, none, none, none, none⟩ prodA).ratings = none ∧
        (applySet ⟨none, none, none, none, none, none⟩ prodA).category = none ∧
        (applySet ⟨none, none, none, none, none, none⟩ prodA).description = none)) :=
  ⟨by decide, rfl, by simp,
    c8_update_overwrites_fields [] [] prodA "aaaaaaaaaaaaaaaaaaaaaaaa"
      ⟨none, none, none, none, none, none⟩ (by decide) rfl (by simp)⟩

/-- The JSON response of the delete endpoint, paired with the store
contents after the call. -/
structure DeleteResponse where
  status : Nat
  success : Bool
  message : String
  newStore : List Product
  deriving Repr, DecidableEq

/-- DELETE /api/v1/products/:id:  a malformed id throws in the ObjectId
constructor and is caught as a 500; `deletedCount === 0` yields the 404
branch; otherwise `deleteOne` removes the (single) matching document. -/
def deleteProduct (store : List Product) (id : String) : DeleteResponse :=
  if validObjectId id then
    if store.any (fun p => p.pid == id) then
      { status := 200, success := true,
        message := "Product deleted successfully",
        newStore := store.eraseP (fun p => p.pid == id) }
    else
      { status := 404, success := false, message := "Product not found",
        newStore := store }
  else
    { status := 500, success := false, message := "Failed to delete product",
      newStore := store }

/-- `eraseP` passes over a prefix containing no match. -/
theorem erasePAppendOfNot (p : Product → Bool)
    (pre rest : List Product) (h : ∀ q ∈ pre, p q = false) :
    (pre ++ rest).eraseP p = pre ++ rest.eraseP p := by
  induction pre with
  | nil => rfl
  | cons x xs ih =>
    have hx : p x = false := h x (by simp)
    have ih2 := ih (fun q hq => h q (by simp [hq]))
    simp [List.cons_append, List.eraseP_cons, hx, ih2, List.append_eq]

/-- C9: deleting any well-formed identifier that matches no stored product
responds 404 and leaves the store unchanged; deleting an existing product
succeeds and removes exactly it, and immediately repeating the delete
responds 404 with the store again unchanged — deletion is idempotent in
effect. -/
theorem c9_delete_idempotent (pre post : List Product) (p : Product)
    (id : String) (hv : validObjectId id = true) (hp : p.pid = id)
    (hpre : ∀ q ∈ pre, (q.pid == id) = false)
    (hpost : ∀ q ∈ post, (q.pid == id) = false) :
    (∀ store : List Product, store.any (fun q => q.pid == id) = false →
        deleteProduct store id
          = { status := 404, success := false, message := "Product not found",
              newStore := store }) ∧
    deleteProduct (pre ++ p :: post) id
        = { status := 200, success := true,
            message := "Product deleted successfully",
            newStore := pre ++ post } ∧
    deleteProduct (pre ++ post) id
        = { status := 404, success := false, message := "Product not found",
            newStore := pre ++ post } := by
  have hmatch : (p.pid == id) = true := by simp [hp]
  refine ⟨?_, ?_, ?_⟩
  · intro store hnone
    simp [deleteProduct, hv, hnone]
  · have hany : (pre ++ p :: post).any (fun q => q.pid == id) = true := by
      simp [List.any_append, hmatch]
    have herase : (pre ++ p :: post).eraseP (fun q => q.pid == id)
        = pre ++ post := by
      rw [erasePAppendOfNot _ _ _ hpre]
      simp [List.eraseP_cons, hmatch]
    simp [deleteProduct, hv, hany, herase]
  · have hnone : (pre ++ post).any (fun q => q.pid == id) = false := by
      rw [List.any_append]
      have h1 : pre.any (fun q => q.pid == id) = false := by
        rw [List.any_eq_false]
        intro q hq
        simp [hpre q hq]
      have h2 : post.any (fun q => q.pid == id) = false := by
        rw [List.any_eq_false]
        intro q hq
        simp [hpost q hq]
      rw [h1, h2]
      rfl
    simp [deleteProduct, hv, hnone]

/-- Witness for C9: deleting `prodA` from `[prodA]` and then deleting the
same id again. -/
theorem c9_delete_idempotent_witness :
    validObjectId "aaaaaaaaaaaaaaaaaaaaaaaa" = true ∧
    prodA.pid = "aaaaaaaaaaaaaaaaaaaaaaaa" ∧
    ((∀ store : List Product,
        store.any (fun q => q.pid == "aaaaaaaaaaaaaaaaaaaaaaaa") = false →
        deleteProduct store "aaaaaaaaaaaaaaaaaaaaaaaa"
          = { status := 404, success := false, message := "Product not found",
              newStore := store }) ∧
      deleteProduct ([] ++ prodA :: []) "aaaaaaaaaaaaaaaaaaaaaaaa"
          = { status := 200, success := true,
              message := "Product deleted successfully",
              newStore := [] ++ [] } ∧
      deleteProduct ([] ++ []) "aaaaaaaaaaaaaaaaaaaaaaaa"
          = { status := 404, success := false, message := "Product not found",
              newStore := [] ++ [] }) :=
  ⟨by decide, rfl,
    c9_delete_idempotent [] [] prodA "aaaaaaaaaaaaaaaaaaaaaaaa"
      (by decide) rfl (by simp) (by simp)⟩

/-- A user document of the `users` collection, as written by the
registration handler. -/
structure User where
  username : String
  email : String
  password : String
  role : String
  imageUrl : Option String
  deriving Repr, DecidableEq

/-- The claims object handed to `jwt.sign`; either field can be
`undefined` in JS, hence the options. -/
structure TokenPayload where
  email : Option String
  role : Option String
  deriving Repr, DecidableEq

/-- A signed token.  Signing itself is opaque; the model records exactly
which claims object is signed and with which secret and expiry. -/
structure SignedToken where
  payload : TokenPayload
  secret : String
  expiresIn : String
  deriving Repr, DecidableEq

/-- The default avatar URL applied when the request carries none. -/
def defaultAvatar : String :=
  "https://cdn.pixabay.com/photo/2020/07/01/12/58/icon-5359553_1280.png"

/-- JS `s || d` for an optional string: a present nonempty string wins,
an absent or empty (falsy) one falls back to the default. -/
def jsOr (s : Option String) (d : String) : String :=
  match s with
  | some v => if v.isEmpty then d else v
  | none => d

/-- The driver's `insertOne` result: `{acknowledged, insertedId}`.  It does
not carry the fields of the inserted document. -/
structure InsertOneResult where
  acknowledged : Bool
  insertedId : Nat
  deriving Repr, DecidableEq

/-- JS property access `newUser.email` on the `insertOne` result: the
object has no `email` property, so the access yields `undefined`. -/
def InsertOneResult.email (_ : InsertOneResult) : Option String := none

/-- JS property access `newUser.imageUrl` on the `insertOne` result:
likewise `undefined`. -/
def InsertOneResult.imageUrl (_ : InsertOneResult) : Option String := none

/-- The public user projection of the registration response.  Its
`imageUrl` is read off the `insertOne` result in the source, hence
optional. -/
structure RegisterView where
  username : String
  email : String
  role : String
  imageUrl : Option String
  deriving Repr, DecidableEq

/-- POST /api/v1/register: either the 400 duplicate response or the 201
success response with the signed token, the public projection and the
store contents after the insert. -/
inductive RegisterResult where
  | duplicate (status : Nat) (success : Bool) (message : String)
  | ok (status : Nat) (success : Bool) (message : String)
      (accessToken : SignedToken) (user : RegisterView)
      (newStore : List User)
  deriving Repr, DecidableEq

/-- The email claim signed into the token of a successful registration
(`none` when the response is the duplicate branch). -/
def RegisterResult.tokenEmail : RegisterResult → Option String
  | .duplicate _ _ _ => none
  | .ok _ _ _ t _ _ => t.payload.email

/-- POST /api/v1/register.  `hash` models `bcrypt.hash` with its fixed
cost.  The token payload takes its email from `newUser` — the `insertOne`
result, whose `email` access yields `undefined`
(`InsertOneResult.email`) — exactly as the source does; the same holds for
the `imageUrl` of the returned projection. -/
def registerHandler (store : List User) (username email password : String)
    (imageUrl : Option String) (hash : String → String)
    (secret expiresIn : String) : RegisterResult :=
  match store.find? (fun u => u.email == email) with
  | some _ => .duplicate 400 false "User already exists!"
  | none =>
    let hashedPassword := hash password
    let doc : User :=
      { username := username, email := email, password := hashedPassword,
        role := "user", imageUrl := some (jsOr imageUrl defaultAvatar) }
    let newUser : InsertOneResult :=
      { acknowledged := true, insertedId := store.length }
    let token : SignedToken :=
      { payload := { email := newUser.email, role := some "user" },
        secret := secret, expiresIn := expiresIn }
    .ok 201 true "User registered successfully!" token
      { username := username, email := email, role := "user",
        imageUrl := newUser.imageUrl }
      (store ++ [doc])

/-- C4 (code bug): at this concrete successful registration the signed
token payload carries no email at all — the handler reads `.email` off the
`insertOne` result instead of the registered email — so the token is not
signed over the registered user's email. -/
theorem c4_register_token_email_undefined :
    (registerHandler [] "alice" "alice@example.com" "pw" none
        (fun s => s ++ "#hashed") "secret" "1h")
      = RegisterResult.ok 201 true "User registered successfully!"
          { payload := { email := none, role := some "user" },
            secret := "secret", expiresIn := "1h" }
          { username := "alice", email := "alice@example.com",
            role := "user", imageUrl := none }
          [{ username := "alice", email := "alice@example.com",
             password := "pw#hashed", role := "user",
             imageUrl := some defaultAvatar }] ∧
    (registerHandler [] "alice" "alice@example.com" "pw" none
        (fun s => s ++ "#hashed") "secret" "1h").tokenEmail
      ≠ some "alice@example.com" := by
  constructor
  · rfl
  · intro h
    simp [registerHandler, RegisterResult.tokenEmail, InsertOneResult.email] at h

/-- The response of POST /api/v1/login: either the bare 401 body
`{message}` or the 200 success body with the token and the public
projection. -/
inductive LoginResult where
  | unauthorized (status : Nat) (message : String)
  | ok (status : Nat) (success : Bool) (message : String)
      (accessToken : SignedToken) (user : RegisterView)
  deriving Repr, DecidableEq

/-- POST /api/v1/login.  `verify` models `bcrypt.compare`.  The two failure
paths — unknown email and failed hash verification — return the same
status and the same literal body. -/
def loginHandler (store : List User) (email password : String)
    (verify : String → String → Bool) (secret expiresIn : String) :
    LoginResult :=
  match store.find? (fun u => u.email == email) with
  | none => .unauthorized 401 "Invalid email or password"
  | some user =>
    if verify password user.password then
      .ok 200 true "User successfully logged in!"
        { payload := { email := some user.email, role := some user.role },
          secret := secret, expiresIn := expiresIn }
        { username := user.username, email := user.email, role := user.role,
          imageUrl := some (jsOr user.imageUrl defaultAvatar) }
    else
      .unauthorized 401 "Invalid email or password"

/-- C5: a login against a store holding no user with the given email and a
login whose stored user fails hash verification both produce the 401
response with the byte-identical generic body — the two causes are
indistinguishable to the caller. -/
theorem c5_login_failures_indistinguishable (store store2 : List User)
    (email password email2 password2 : String)
    (verify : String → String → Bool) (secret expiresIn : String) (u : User)
    (h1 : store.find? (fun v => v.email == email) = none)
    (h2 : store2.find? (fun v => v.email == email2) = some u)
    (h3 : verify password2 u.password = false) :
    loginHandler store email password verify secret expiresIn
        = .unauthorized 401 "Invalid email or password" ∧
    loginHandler store2 email2 password2 verify secret expiresIn
        = loginHandler store email password verify secret expiresIn := by
  constructor
  · simp [loginHandler, h1]
  · simp [loginHandler, h1, h2, h3]

/-- A concrete stored user for the login witness. -/
def userBob : User :=
  { username := "bob", email := "bob@example.com",
    password := "storedhash", role := "user", imageUrl := none }

/-- Witness for C5: unknown email against the empty store versus a wrong
password against the store holding `userBob`. -/
theorem c5_login_failures_indistinguishable_witness :
    ([] : List User).find? (fun v => v.email == "alice@example.com") = none ∧
    [userBob].find? (fun v => v.email == "bob@example.com") = some userBob ∧
    (fun _ _ : String => false) "wrong" userBob.password = false ∧
    (loginHandler [] "alice@example.com" "pw" (fun _ _ => false) "s" "1h"
        = .unauthorized 401 "Invalid email or password" ∧
      loginHandler [userBob] "bob@example.com" "wrong" (fun _ _ => false) "s" "1h"
        = loginHandler [] "alice@example.com" "pw" (fun _ _ => false) "s" "1h") :=
  ⟨rfl, by simp [userBob], rfl,
    c5_login_failures_indistinguishable [] [userBob] "alice@example.com" "pw"
      "bob@example.com" "wrong" (fun _ _ => false) "s" "1h" userBob
      rfl (by simp [userBob]) rfl⟩

/-- A JS exception value thrown by a collaborator (store, hashing or
signing failure). -/
structure JsError where
  msg : String
  deriving Repr, DecidableEq

/-- What one handler invocation produces: an HTTP JSON response (status,
optional success flag, message) or a thrown error escaping the handler
uncaught. -/
inductive HandlerOutcome where
  | response (status : Nat) (success : Option Bool) (message : String)
  | uncaught (e : JsError)
  deriving Repr, DecidableEq

/-- GET /api/v1/products with its two awaited store calls made explicit as
possibly-throwing outcomes.  The whole body sits inside try/catch, so every
failure is caught and mapped to the 500 envelope. -/
def getProductsRun (findR : Except JsError (List Product))
    (countR : Except JsError Nat) : HandlerOutcome :=
  match findR with
  | .error _ => .response 500 (some false) "Failed to get products"
  | .ok _ =>
    match countR with
    | .error _ => .response 500 (some false) "Failed to get products"
    | .ok _ => .response 200 (some true) "Products retrieved successfully"

/-- GET /api/v1/products/:id with its awaited `findOne` made explicit; the
try/catch also absorbs the ObjectId constructor throw on a malformed id. -/
def getProductRun (id : String)
    (findOneR : Except JsError (Option Product)) : HandlerOutcome :=
  if validObjectId id then
    match findOneR with
    | .error _ => .response 500 (some false) "Failed to get product"
    | .ok none => .response 404 (some false) "Product not found"
    | .ok (some _) => .response 200 (some true) "Product retrieved successfully"
  else .response 500 (some false) "Failed to get product"

/-- POST /api/v1/products with its awaited `insertOne` made explicit; the
try/catch maps any failure to the 500 envelope. -/
def createProductRun (insertR : Except JsError InsertOneResult) :
    HandlerOutcome :=
  match insertR with
  | .error _ => .response 500 (some false) "Failed to create product"
  | .ok _ => .response 201 (some true) "Product created successfully"

/-- PUT /api/v1/products/:id with its awaited `updateOne` made explicit
(the payload of a successful call is the `matchedCount`). -/
def updateProductRun (id : String) (updateR : Except JsError Nat) :
    HandlerOutcome :=
  if validObjectId id then
    match updateR with
    | .error _ => .response 500 (some false) "Failed to update product"
    | .ok 0 => .response 404 (some false) "Product not found"
    | .ok _ => .response 200 (some true) "Product updated successfully"
  else .response 500 (some false) "Failed to update product"

/-- DELETE /api/v1/products/:id with its awaited `deleteOne` made explicit
(the payload of a successful call is the `deletedCount`). -/
def deleteProductRun (id : String) (deleteR : Except JsError Nat) :
    HandlerOutcome :=
  if validObjectId id then
    match deleteR with
    | .error _ => .response 500 (some false) "Failed to delete product"
    | .ok 0 => .response 404 (some false) "Product not found"
    | .ok _ => .response 200 (some true) "Product deleted successfully"
  else .response 500 (some false) "Failed to delete product"

/-- POST /api/v1/register with its four awaited collaborator calls made
explicit.  The handler body contains no try/catch: the first failing await
escapes the handler uncaught. -/
def registerRun (findOneR : Except JsError (Option User))
    (hashR : Except JsError String)
    (insertR : Except JsError InsertOneResult)
    (signR : Except JsError SignedToken) : HandlerOutcome :=
  match findOneR with
  | .error e => .uncaught e
  | .ok (some _) => .response 400 (some false) "User already exists!"
  | .ok none =>
    match hashR with
    | .error e => .uncaught e
    | .ok _ =>
      match insertR with
      | .error e => .uncaught e
      | .ok _ =>
        match signR with
        | .error e => .uncaught e
        | .ok _ => .response 201 (some true) "User registered successfully!"

/-- POST /api/v1/login with its three awaited collaborator calls made
explicit.  Like the register handler it contains no try/catch. -/
def loginRun (findOneR : Except JsError (Option User))
    (compareR : Except JsError Bool)
    (signR : Except JsError SignedToken) : HandlerOutcome :=
  match findOneR with
  | .error e => .uncaught e
  | .ok none => .response 401 none "Invalid email or password"
  | .ok (some _) =>
    match compareR with
    | .error e => .uncaught e
    | .ok false => .response 401 none "Invalid email or password"
    | .ok true =>
      match signR with
      | .error e => .uncaught e
      | .ok _ => .response 200 (some true) "User successfully logged in!"

/-- C6 counterexample: a store failure inside the register handler's first
await escapes the handler uncaught instead of being mapped to a 4xx/5xx
JSON response. -/
theorem c6_counterexample_register_uncaught :
    registerRun (.error ⟨"store failure"⟩) (.ok "hashed")
        (.ok ⟨true, 0⟩)
        (.ok { payload := { email := none, role := some "user" },
               secret := "s", expiresIn := "1h" })
      = .uncaught ⟨"store failure"⟩ := rfl

/-- C6 amended: each of the five product handlers catches its own failures
locally and maps them to its 500 envelope, but the register and login
handlers contain no local catch — a failing collaborator await escapes
them uncaught. -/
theorem c6_amended_catch_boundaries (e : JsError) (id : String)
    (countR : Except JsError Nat) (hashR : Except JsError String)
    (insertR : Except JsError InsertOneResult)
    (compareR : Except JsError Bool) (signR : Except JsError SignedToken) :
    getProductsRun (.error e) countR
        = .response 500 (some false) "Failed to get products" ∧
    getProductRun id (.error e)
        = .response 500 (some false) "Failed to get product" ∧
    createProductRun (.error e)
        = .response 500 (some false) "Failed to create product" ∧
    updateProductRun id (.error e)
        = .response 500 (some false) "Failed to update product" ∧
    deleteProductRun id (.error e)
        = .response 500 (some false) "Failed to delete product" ∧
    registerRun (.error e) hashR insertR signR = .uncaught e ∧
    registerRun (.ok none) (.error e) insertR signR = .uncaught e ∧
    loginRun (.error e) compareR signR = .uncaught e := by
  refine ⟨rfl, ?_, rfl, ?_, ?_, rfl, rfl, rfl⟩
  · unfold getProductRun
    by_cases h : validObjectId id = true <;> simp [h]
  · unfold updateProductRun
    by_cases h : validObjectId id = true <;> simp [h]
  · unfold deleteProductRun
    by_cases h : validObjectId id = true <;> simp [h]

end DressUp
